import Mathlib

/-!
Shallow embedding of the cotel-backend polling-and-delivery pipeline.

The embedding covers:
* the message formatting of `jobs/notifications_runner.py`
  (`_format_match_events_message`, `_format_digest_message`);
* the lease reservation of `jobs/subscriptions_runner.py`
  (`_reserve_due_subscriptions`);
* the per-subscription processor (`_process_one_subscription` together
  with the commit/rollback/retry handling of its caller `run_tick`);
* the notification dispatch tick of `jobs/notifications_runner.py`
  (`run_tick` with both the match-event and the digest-event pipeline).

Python strings are modelled as `List Char` (`len` is `List.length`,
slicing is `take`/`drop`, `str.strip` is trimming of whitespace
characters).  Timestamps are modelled as integers (minutes); `timedelta`
arithmetic becomes integer addition.  Database sessions are modelled by
explicit state passing: a per-subscription tick maps a store to a new
store, a committed transaction is a functional update and a rollback
simply discards the pending update.  External adapters (Telegram fetch,
LLM calls, bot send, link building, ISO timestamp parsing, timezone
rendering) are parameters of the embedding; fallible ones return
`Except`.
-/

namespace Cotel

/-- Python strings, modelled as lists of characters. -/
abbrev Str := List Char

/-- Coerce a Lean string literal into the character-list model. -/
def lit (s : String) : Str := s.data

/-- Python `str.strip()`: drop whitespace from both ends. -/
def pyStrip (s : Str) : Str :=
  ((s.dropWhile Char.isWhitespace).reverse.dropWhile Char.isWhitespace).reverse

/-- Python `str.rstrip()`: drop whitespace from the right end. -/
def pyRstrip (s : Str) : Str :=
  (s.reverse.dropWhile Char.isWhitespace).reverse

/-- Python `str.lower()`. -/
def pyLower (s : Str) : Str := s.map Char.toLower

/-- Python truthiness of an optional string: `None` and `""` are falsy. -/
def strTruthy : Option Str → Bool
  | none => false
  | some s => !s.isEmpty

/-- Python `x or y` on an optional string `x` with default `y`. -/
def pyOrStr (x : Option Str) (y : Str) : Str :=
  match x with
  | some s => if s.isEmpty then y else s
  | none => y

/-- Python `x or d` on an optional integer (`None` and `0` are falsy). -/
def pyOrInt (x : Option Int) (d : Int) : Int :=
  match x with
  | some v => if v = 0 then d else v
  | none => d

/-- Decimal rendering of an integer, as Python `str(int)`. -/
def intStr (n : Int) : Str := (toString n).data

/-- Decimal rendering of a natural number. -/
def natStr (n : Nat) : Str := (toString n).data

/-- Python `max` over a list of integers (`None` on the empty list). -/
def pyMax : List Int → Option Int
  | [] => none
  | x :: xs => some (xs.foldl max x)

/-- Python `min` over a list of integers (`None` on the empty list). -/
def pyMin : List Int → Option Int
  | [] => none
  | x :: xs => some (xs.foldl min x)

/-- Python `enumerate(xs, start=i)`. -/
def enumFrom : Nat → List α → List (Nat × α)
  | _, [] => []
  | i, x :: xs => (i, x) :: enumFrom (i + 1) xs

/-! ## Data model (`db/models.py`) -/

/-- Row of the `subscriptions` table (the columns the pipeline reads). -/
structure SubRow where
  id : Int
  name : Str
  subscription_type : Str
  chat_ref : Str
  chat_id : Option Int
  frequency_minutes : Int
  prompt : Str
  is_active : Bool
  owner_user_id : Option Int
  status : Str
  last_error : Option Str
deriving DecidableEq, Repr

/-- Row of the `subscription_state` table. -/
structure StateRow where
  subscription_id : Int
  last_message_id : Option Int
  last_checked_at : Option Int
  last_success_at : Option Int
  next_run_at : Option Int
deriving DecidableEq, Repr

/-- Row of the `match_events` table.  `message_ts` is the `isoformat()`
rendering of the stored datetime, kept abstract as a string. -/
structure MatchEventRow where
  id : Int
  subscription_id : Int
  message_id : Int
  message_ts : Option Int
  author_id : Option Int
  author_display : Option Str
  excerpt : Option Str
  reason : Option Str
  notify_status : Str
deriving DecidableEq, Repr

/-- Row of the `digest_events` table. -/
structure DigestEventRow where
  id : Int
  subscription_id : Int
  window_start : Option Int
  window_end : Option Int
  start_message_id : Option Int
  end_message_id : Option Int
  digest_text : Str
  llm_payload : Option Str
  notify_status : Str
deriving DecidableEq, Repr

/-! ## Constants (`jobs/notifications_runner.py`, `jobs/subscriptions_runner.py`) -/

def TG_MSG_HARD_LIMIT : Nat := 4096

def DETAIL_TEXT_LIMIT : Nat := 3800

def BATCH_LIMIT : Nat := 200

def BATCH_SIZE : Nat := 20

def LEASE_MINUTES : Int := 5

def RETRY_MINUTES : Int := 2

def DEV_OWNER_USER_ID : Int := 1

def STATUS_QUEUED : Str := lit "queued"

def STATUS_SENDING : Str := lit "sending"

def STATUS_SENT : Str := lit "sent"

def STATUS_FAILED : Str := lit "failed"

/-! ## Message formatting (`jobs/notifications_runner.py`)

`build_tg_message_link` (URL construction from `main.py`) and the
datetime rendering of `message_ts.isoformat()` only contribute opaque
text, so they are parameters of the formatter; all the length-budget
logic is embedded literally. -/

/-- Excerpt truncation, `excerpt[:300].rstrip() + "…"` when over the cap
(`subscriptions_runner.py` lines 256-257, `notifications_runner.py`
lines 176-177). -/
def capExcerpt (e : Str) : Str :=
  if e.length > 300 then pyRstrip (e.take 300) ++ lit "…" else e

/-- The `ts` rendering used by the detail block:
`ev.message_ts.isoformat() if ev.message_ts else "—"`, with the
`isoformat` rendering supplied as the parameter `iso`. -/
def matchTs (iso : Int → Str) (ts : Option Int) : Str :=
  match ts with
  | some t => iso t
  | none => lit "—"

/-- The `author` rendering of the detail block:
`ev.author_display or (str(ev.author_id) if ev.author_id else "—")`. -/
def matchAuthor (ev : MatchEventRow) : Str :=
  pyOrStr ev.author_display
    (match ev.author_id with
     | some a => if a = 0 then lit "—" else intStr a
     | none => lit "—")

/-- Header of the match-events message. -/
def matchHeader (sub : SubRow) (n : Nat) : Str :=
  lit "Найдены события по подписке: "
    ++ pyOrStr (some sub.name) (lit "#" ++ intStr sub.id)
    ++ lit "\n" ++ lit "Совпадений: " ++ natStr n ++ lit "\n"

/-- One rich detail block
`f"\n{idx}) {author} • {ts}\n{excerpt or '—'}{link_text}"`. -/
def matchDetailBlock (iso : Int → Str) (link : Option Str) (idx : Nat)
    (ev : MatchEventRow) : Str :=
  let author := matchAuthor ev
  let ts := matchTs iso ev.message_ts
  let excerpt := capExcerpt (pyStrip (ev.excerpt.getD []))
  let linkText := match link with
    | some u => lit "\n" ++ u
    | none => []
  lit "\n" ++ natStr idx ++ lit ") " ++ author ++ lit " • " ++ ts ++ lit "\n"
    ++ (if excerpt.isEmpty then lit "—" else excerpt) ++ linkText

/-- State of the detail phase: assembled text, the running `used`
counter, and the enumerated items that did not fit. -/
structure FmtState where
  text : Str
  used : Nat
  remaining : List (Nat × MatchEventRow)

/-- Detail phase: append rich blocks while `used` stays within
`DETAIL_TEXT_LIMIT`; overflowing items go to `remaining`. -/
def detailPhase (iso : Int → Str) (mkLink : MatchEventRow → Option Str) :
    FmtState → List (Nat × MatchEventRow) → FmtState
  | s, [] => s
  | s, (idx, ev) :: rest =>
    let block := matchDetailBlock iso (mkLink ev) idx ev
    if s.used + block.length ≤ DETAIL_TEXT_LIMIT then
      detailPhase iso mkLink
        { s with text := s.text ++ block, used := s.used + block.length } rest
    else
      detailPhase iso mkLink
        { s with remaining := s.remaining ++ [(idx, ev)] } rest

/-- Compact tail line: `f"\n{idx}) {url}"`, or the bare message id when
no link is constructible. -/
def tailLine (mkLink : MatchEventRow → Option Str) (idx : Nat)
    (ev : MatchEventRow) : Str :=
  match mkLink ev with
  | some u => lit "\n" ++ natStr idx ++ lit ") " ++ u
  | none => lit "\n" ++ natStr idx ++ lit ") message_id=" ++ intStr ev.message_id

/-- The fixed truncation marker of the tail phase. -/
def tailEllipsis : Str := lit "\n…(дальше не влезло по лимиту Telegram)"

/-- Tail phase: append compact lines while within `TG_MSG_HARD_LIMIT`;
on the first overflow append the marker (if it fits) and stop. -/
def tailPhase (mkLink : MatchEventRow → Option Str) :
    Str → Nat → List (Nat × MatchEventRow) → Str
  | text, _, [] => text
  | text, used, (idx, ev) :: rest =>
    let line := tailLine mkLink idx ev
    if used + line.length ≤ TG_MSG_HARD_LIMIT then
      tailPhase mkLink (text ++ line) (used + line.length) rest
    else
      if used + tailEllipsis.length ≤ TG_MSG_HARD_LIMIT then
        text ++ tailEllipsis
      else text

/-- Final safety clamp of both formatters:
`text[:TG_MSG_HARD_LIMIT - 1] + "…"` when the text is over the limit. -/
def clampHard (t : Str) : Str :=
  if t.length > TG_MSG_HARD_LIMIT then
    t.take (TG_MSG_HARD_LIMIT - 1) ++ lit "…"
  else t

/-- Assembled (pre-clamp) text of `_format_match_events_message`. -/
def matchMessageRaw (iso : Int → Str)
    (buildLink : Option Str → Option Int → Int → Option Str)
    (sub : SubRow) (events : List MatchEventRow) : Str :=
  let mkLink := fun (ev : MatchEventRow) =>
    buildLink (some sub.chat_ref) sub.chat_id ev.message_id
  let header := matchHeader sub events.length
  let s0 : FmtState := { text := header, used := header.length, remaining := [] }
  let s1 := detailPhase iso mkLink s0 (enumFrom 1 events)
  if s1.remaining.isEmpty then s1.text
  else
    let tailHeader := lit "\n\nОстальные совпадения (ссылками):"
    let start :=
      if s1.used + tailHeader.length < TG_MSG_HARD_LIMIT then
        (s1.text ++ tailHeader, s1.used + tailHeader.length)
      else (s1.text, s1.used)
    tailPhase mkLink start.1 start.2 s1.remaining

/-- `_format_match_events_message` (notifications_runner.py lines
152-229). -/
def formatMatchEventsMessage (iso : Int → Str)
    (buildLink : Option Str → Option Int → Int → Option Str)
    (sub : SubRow) (events : List MatchEventRow) : Str :=
  clampHard (matchMessageRaw iso buildLink sub events)

/-- Assembled (pre-clamp) text of `_format_digest_message`.
`formatPeriod` abstracts `format_period_variant_f` together with the
configured display timezone (localized calendar rendering). -/
def digestMessageRaw (formatPeriod : Int → Int → Str)
    (sub : SubRow) (ev : DigestEventRow) : Str :=
  let title := lit "Резюме по подписке: "
    ++ pyOrStr (some sub.name) (lit "#" ++ intStr sub.id)
  let period :=
    match ev.window_start, ev.window_end with
    | some ws, some we => lit "Период: " ++ formatPeriod ws we
    | _, _ => lit "Период: —"
  let body := pyOrStr (some (pyStrip ev.digest_text)) (lit "—")
  title ++ lit "\n" ++ period ++ lit "\n\n" ++ body

/-- `_format_digest_message` (notifications_runner.py lines 281-309). -/
def formatDigestMessage (formatPeriod : Int → Int → Str)
    (sub : SubRow) (ev : DigestEventRow) : Str :=
  clampHard (digestMessageRaw formatPeriod sub ev)

/-! ## Scheduler lease reservation (`_reserve_due_subscriptions`) -/

/-- Insertion step of a stable insertion sort. -/
def insertByLe (le : α → α → Bool) (x : α) : List α → List α
  | [] => [x]
  | y :: ys => if le x y then x :: y :: ys else y :: insertByLe le x ys

/-- Stable insertion sort, modelling the SQL `ORDER BY` of a query. -/
def sortByLe (le : α → α → Bool) : List α → List α
  | [] => []
  | x :: xs => insertByLe le x (sortByLe le xs)

/-- The due predicate of the reservation query:
`next_run_at IS NULL OR next_run_at <= now`. -/
def dueB (st : StateRow) (now : Int) : Bool :=
  match st.next_run_at with
  | none => true
  | some t => decide (t ≤ now)

/-- Sort key of the reservation query:
`ORDER BY next_run_at ASC NULLS FIRST, subscription_id ASC`. -/
def reserveLe (a b : StateRow × SubRow) : Bool :=
  match a.1.next_run_at, b.1.next_run_at with
  | none, none => decide (a.1.subscription_id ≤ b.1.subscription_id)
  | none, some _ => true
  | some _, none => false
  | some x, some y =>
    if x = y then decide (a.1.subscription_id ≤ b.1.subscription_id)
    else decide (x ≤ y)

/-- The reservation stamp applied to every selected state row:
`last_checked_at = now`, `next_run_at = now + LEASE_MINUTES`. -/
def leaseStamp (now : Int) (st : StateRow) : StateRow :=
  { st with last_checked_at := some now,
            next_run_at := some (now + LEASE_MINUTES) }

/-- `_reserve_due_subscriptions`: select the active, due state rows
(most overdue first, capped at `BATCH_SIZE`), stamp each with the lease,
and return the reserved subscription ids together with the stamped
rows. -/
def reserveDueSubscriptions (rows : List (StateRow × SubRow)) (now : Int) :
    List Int × List (StateRow × SubRow) :=
  let sel := (sortByLe reserveLe
    (rows.filter (fun r => r.2.is_active && dueB r.1 now))).take BATCH_SIZE
  (sel.map (fun r => r.2.id), sel.map (fun r => (leaseStamp now r.1, r.2)))

/-! ## External adapter interfaces (spec section 6)

The Telegram fetch, the two LLM calls and ISO-timestamp parsing are
external collaborators; they are parameters of the processor model.
Fallible calls return `Except` — an `error` value models a raised
exception. -/

/-- Chat entity metadata as used by the processor (Telethon entity). -/
structure EntityInfo where
  id : Option Int
  title : Option Str
  username : Option Str
deriving DecidableEq, Repr

/-- A normalized message as produced by
`fetch_chat_messages_for_subscription` (`telegram_service.py`). -/
structure Msg where
  message_id : Int
  message_ts : Option Str
  author_id : Option Int
  author_display : Option Str
  text : Str
deriving DecidableEq, Repr

/-- One entry of the `matches` array of the LLM response. -/
structure MatchItem where
  message_id : Option Int
  message_ts : Option Str
  author_display : Option Str
  author_id : Option Int
  excerpt : Option Str
  reason : Option Str
deriving DecidableEq, Repr

/-- Parsed LLM response of `call_openai_subscription_match`. -/
structure MatchResp where
  found : Bool
  «matches» : List MatchItem
deriving DecidableEq, Repr

/-- Parsed LLM response of `call_openai_subscription_digest`;
`confidence` is kept opaque. -/
structure DigestResp where
  digest_text : Option Str
  confidence : Option Str
deriving DecidableEq, Repr

/-- The external adapters of one processor tick.  `fetch` takes
(owner_user_id, chat_link, since_dt, min_id); the LLM calls take
(prompt, chat_title, messages); `parseIso` models `parse_iso_ts`. -/
structure ProcEnv where
  fetch : Int → Str → Int → Option Int → Except Str (EntityInfo × List Msg)
  llmMatch : Str → Str → List Msg → Except Str MatchResp
  llmDigest : Str → Str → List Msg → Except Str DigestResp
  parseIso : Str → Option Int

/-- `parse_iso_ts` applied to an optional string (`None` parses to
`None`). -/
def parseIsoOpt (env : ProcEnv) (x : Option Str) : Option Int :=
  match x with
  | some s => env.parseIso s
  | none => none

/-- `chat_title = entity.title or entity.username or "Chat"`. -/
def chatTitle (entity : EntityInfo) : Str :=
  pyOrStr entity.title (pyOrStr entity.username (lit "Chat"))

/-! ## Subscription processor (`_process_one_subscription` + `run_tick`) -/

/-- The per-subscription slice of the store seen by one processor tick:
the subscription row, its state row, and the two event tables. -/
structure TickStore where
  sub : SubRow
  state : Option StateRow
  matchEvents : List MatchEventRow
  digestEvents : List DigestEventRow
deriving DecidableEq, Repr

/-- `freq_min = int(getattr(sub, "frequency_minutes", 60) or 60)`. -/
def subFreq (sub : SubRow) : Int := pyOrInt (some sub.frequency_minutes) 60

/-- `sub_type = (sub.subscription_type or "events").lower()`, then
`"summary"` is renamed to `"digest"`. -/
def effectiveType (sub : SubRow) : Str :=
  let t := pyLower (pyOrStr (some sub.subscription_type) (lit "events"))
  if t == lit "summary" then lit "digest" else t

/-- `owner_user_id = sub.owner_user_id or DEV_OWNER_USER_ID`. -/
def subOwner (sub : SubRow) : Int := pyOrInt sub.owner_user_id DEV_OWNER_USER_ID

/-- `datetime(1970, 1, 1, tzinfo=timezone.utc)` in the integer time
model (minutes since the epoch). -/
def EPOCH_1970 : Int := 0

/-- The chat-id backfill: `if sub.chat_id is None: sub.chat_id =
entity.id` (when the entity has an id). -/
def updateChatId (sub : SubRow) (entity : EntityInfo) : SubRow :=
  match sub.chat_id with
  | some _ => sub
  | none =>
    match entity.id with
    | some i => { sub with chat_id := some i }
    | none => sub

/-- The short-retry write of `run_tick`'s exception handler, done in a
separate session: `st.next_run_at = now + RETRY_MINUTES` when the state
row exists. -/
def retrySchedule (now : Int) (store : TickStore) : TickStore :=
  match store.state with
  | some st =>
    { store with state := some { st with next_run_at := some (now + RETRY_MINUTES) } }
  | none => store

/-- A failed per-subscription tick: the session is rolled back (pending
changes discarded) and the short retry is scheduled. -/
def failResult (now : Int) (store : TickStore) : TickStore × Bool :=
  (retrySchedule now store, false)

/-- `SubscriptionState(subscription_id=sub.id)`: a fresh state row. -/
def freshState (subId : Int) : StateRow :=
  { subscription_id := subId, last_message_id := none, last_checked_at := none,
    last_success_at := none, next_run_at := none }

/-- The success-path state advance: `last_success_at = now`,
`last_checked_at = now`, `next_run_at = now + freq`. -/
def advanceSuccess (now freq : Int) (st : StateRow) : StateRow :=
  { st with last_success_at := some now, last_checked_at := some now,
            next_run_at := some (now + freq) }

/-- `msg_by_id` lookup: the dict comprehension keeps the last message
with a given id. -/
def msgById (msgs : List Msg) (mid : Int) : Option Msg :=
  msgs.reverse.find? (fun m => m.message_id == mid)

/-- The excerpt selected for a persisted match: the stripped source
text, falling back to the stripped LLM excerpt when the source text is
absent or empty (subscriptions_runner.py lines 249-254). -/
def excerptBase (src : Option Msg) (itemExcerpt : Option Str) : Str :=
  let e1 : Str := match src with
    | some m => pyStrip m.text
    | none => []
  if e1.isEmpty then pyStrip (itemExcerpt.getD []) else e1

/-- The excerpt as persisted: the selected text, hard-truncated at 300
characters (subscriptions_runner.py lines 249-257). -/
def matchExcerptSource (src : Option Msg) (itemExcerpt : Option Str) : Str :=
  capExcerpt (excerptBase src itemExcerpt)

/-- The timestamp selected for a persisted match: parsed from the
source message when present, else from the LLM item
(subscriptions_runner.py lines 259-266). -/
def matchTsSource (env : ProcEnv) (src : Option Msg) (item : MatchItem) :
    Option Int :=
  match src with
  | some m =>
    if strTruthy m.message_ts then parseIsoOpt env m.message_ts
    else parseIsoOpt env item.message_ts
  | none => parseIsoOpt env item.message_ts

/-- One `MatchEvent(...)` as constructed by the processor for an LLM
match item with message id `mid` (subscriptions_runner.py lines
237-279).  `id` is 0 until the insert assigns it. -/
def buildMatchEventRow (env : ProcEnv) (subId : Int) (msgs : List Msg)
    (item : MatchItem) (mid : Int) : MatchEventRow :=
  let src := msgById msgs mid
  { id := 0
    subscription_id := subId
    message_id := mid
    message_ts := matchTsSource env src item
    author_id := (match src with | some m => m.author_id | none => none)
    author_display := (match src with | some m => m.author_display | none => none)
    excerpt := some (matchExcerptSource src item.excerpt)
    reason := item.reason
    notify_status := STATUS_QUEUED }

/-- The loop over `matches`: items without a message id are skipped. -/
def buildMatchEvents (env : ProcEnv) (subId : Int) (msgs : List Msg)
    (items : List MatchItem) : List MatchEventRow :=
  items.filterMap (fun item =>
    match item.message_id with
    | none => none
    | some mid => some (buildMatchEventRow env subId msgs item mid))

/-- Does inserting `e` violate the unique constraint
`uq_match_subscription_message` on `(subscription_id, message_id)`? -/
def matchKeyClash (table : List MatchEventRow) (e : MatchEventRow) : Bool :=
  table.any (fun t =>
    t.subscription_id == e.subscription_id && t.message_id == e.message_id)

/-- Autoincrement id for the next inserted row. -/
def nextEventId (table : List MatchEventRow) : Int :=
  (table.map (fun t => t.id)).foldl max 0 + 1

/-- Flushing the buffered `db.add`-ed match events at commit: a plain
INSERT per row, raising `IntegrityError` on a unique-constraint
violation (there is no ON CONFLICT clause in the job runner). -/
def insertMatchEvents (table : List MatchEventRow) :
    List MatchEventRow → Except Str (List MatchEventRow)
  | [] => .ok table
  | e :: rest =>
    if matchKeyClash table e then
      .error (lit "IntegrityError: duplicate key violates uq_match_subscription_message")
    else insertMatchEvents (table ++ [{ e with id := nextEventId table }]) rest

/-- Column names of the `DigestEvent` model (`db/models.py` lines
92-114). -/
def digestEventColumns : List Str :=
  [lit "id", lit "subscription_id", lit "window_start", lit "window_end",
   lit "start_message_id", lit "end_message_id", lit "messages_seen",
   lit "digest_text", lit "llm_payload", lit "notify_status", lit "created_at"]

/-- Keyword-argument names of the `DigestEvent(...)` call in the digest
persist step (subscriptions_runner.py lines 152-162). -/
def digestInsertKwargNames : List Str :=
  [lit "subscription_id", lit "window_start_at", lit "window_end_at",
   lit "start_message_id", lit "end_message_id", lit "digest_text",
   lit "llm_payload", lit "notify_status"]

/-- The SQLAlchemy declarative constructor accepts a keyword argument
only when it names a mapped column; otherwise it raises `TypeError`. -/
def ormKwargsAccepted (cols kwargs : List Str) : Bool :=
  kwargs.all (fun k => cols.contains k)

/-- The `DigestEvent(...)` construction of the digest persist step,
checked against the model's columns as SQLAlchemy does. -/
def constructDigestEvent (subId : Int) (ws we : Int) (startId endId : Option Int)
    (text : Str) (payload : Option Str) : Except Str DigestEventRow :=
  if ormKwargsAccepted digestEventColumns digestInsertKwargNames then
    .ok { id := 0, subscription_id := subId, window_start := some ws,
          window_end := some we, start_message_id := startId,
          end_message_id := endId, digest_text := text,
          llm_payload := payload, notify_status := STATUS_QUEUED }
  else
    .error (lit "TypeError: window_start_at is an invalid keyword argument for DigestEvent")

/-- The digest branch of `_process_one_subscription` (lines 94-176),
with the commit/rollback/retry handling of `run_tick` folded in: the
result is the store after the tick plus the success flag. -/
def digestBranch (env : ProcEnv) (now : Int) (store : TickStore) :
    TickStore × Bool :=
  let sub := store.sub
  let st := store.state
  let freq := subFreq sub
  let since := now - freq
  let owner := subOwner sub
  match env.fetch owner sub.chat_ref since none with
  | .error _ => failResult now store
  | .ok (entity, msgs) =>
    let sub1 := updateChatId sub entity
    let store1 := { store with sub := sub1 }
    if msgs.isEmpty then
      let st0 := match st with | some s => s | none => freshState sub1.id
      ({ store1 with state := some (advanceSuccess now freq st0) }, true)
    else
      let ids := msgs.map (fun m => m.message_id)
      let newestId := pyMax ids
      let oldestId := pyMin ids
      match env.llmDigest sub1.prompt (chatTitle entity) msgs with
      | .error _ => failResult now store1
      | .ok resp =>
        let digestText0 := pyStrip (resp.digest_text.getD [])
        let digestText :=
          if digestText0.length > 4096 then
            pyRstrip (digestText0.take 4096) ++ lit "…"
          else digestText0
        match constructDigestEvent sub1.id since now
            (match oldestId with
             | some i => if i = 0 then none else some i
             | none => none)
            (match newestId with
             | some i => if i = 0 then none else some i
             | none => none)
            digestText resp.confidence with
        | .error _ => failResult now store1
        | .ok ev =>
          let st0 := match st with | some s => s | none => freshState sub1.id
          let st1 :=
            match newestId with
            | some nid => if nid = 0 then st0 else { st0 with last_message_id := some nid }
            | none => st0
          ({ store1 with digestEvents := store1.digestEvents ++ [ev],
                         state := some (advanceSuccess now freq st1) }, true)

/-- The events branch of `_process_one_subscription` (lines 178-289),
with the commit/rollback/retry handling of `run_tick` folded in. -/
def eventsBranch (env : ProcEnv) (now : Int) (store : TickStore) :
    TickStore × Bool :=
  let sub := store.sub
  let st := store.state
  let lastMessageId := match st with | some s => s.last_message_id | none => none
  let freq := subFreq sub
  let sinceMin : Int × Option Int :=
    match lastMessageId with
    | some c => if c = 0 then (now - freq, none) else (EPOCH_1970, some c)
    | none => (now - freq, none)
  let owner := subOwner sub
  match env.fetch owner sub.chat_ref sinceMin.1 sinceMin.2 with
  | .error _ => failResult now store
  | .ok (entity, msgs) =>
    let sub1 := updateChatId sub entity
    if msgs.isEmpty then
      match st with
      | some s =>
        ({ store with sub := sub1, state := some (advanceSuccess now freq s) }, true)
      | none => ({ store with sub := sub1 }, true)
    else
      let ids := msgs.map (fun m => m.message_id)
      let newestId := match pyMax ids with
        | some m => some m
        | none => lastMessageId
      match env.llmMatch sub1.prompt (chatTitle entity) msgs with
      | .error _ => failResult now store
      | .ok resp =>
        let newEvents := buildMatchEvents env sub1.id msgs resp.«matches»
        let st0 := match st with | some s => s | none => freshState sub1.id
        let st1 :=
          match newestId with
          | some nid => if nid = 0 then st0 else { st0 with last_message_id := some nid }
          | none => st0
        match insertMatchEvents store.matchEvents newEvents with
        | .error _ => failResult now store
        | .ok table =>
          ({ store with sub := sub1, state := some (advanceSuccess now freq st1),
                        matchEvents := table }, true)

/-- One per-subscription processor tick:
`_process_one_subscription` dispatched on the effective mode, together
with the commit-on-success / rollback-and-retry-on-failure handling of
`run_tick`.  Any mode other than `digest`/`summary` falls through to
the events branch. -/
def runTickOne (env : ProcEnv) (now : Int) (store : TickStore) :
    TickStore × Bool :=
  if effectiveType store.sub == lit "digest" then digestBranch env now store
  else eventsBranch env now store

/-- The per-subscription loop of the processor `run_tick`: each due
subscription is processed on its own; one failure never aborts the
siblings. -/
def runTickBatch (env : ProcEnv) (now : Int) (stores : List TickStore) :
    List (TickStore × Bool) :=
  stores.map (fun s => runTickOne env now s)

/-- The cursor of a per-subscription store. -/
def cursorOf (store : TickStore) : Option Int :=
  match store.state with
  | some st => st.last_message_id
  | none => none

/-- Cursor comparison: a set cursor may only move to a greater-or-equal
set cursor. -/
def cursorLe (o n : Option Int) : Prop :=
  ∀ c, o = some c → ∃ c2, n = some c2 ∧ c ≤ c2

/-- Message Source adapter contract (spec section 6): when called with
an exclusive id floor, every returned message has a strictly larger
id. -/
def fetchHonorsCursor (env : ProcEnv) : Prop :=
  ∀ owner ref since c ent msgs,
    env.fetch owner ref since (some c) = .ok (ent, msgs) →
    ∀ m ∈ msgs, c < m.message_id

/-- Message Source adapter contract: Telegram message ids are
positive. -/
def fetchIdsPositive (env : ProcEnv) : Prop :=
  ∀ owner ref since minId ent msgs,
    env.fetch owner ref since minId = .ok (ent, msgs) →
    ∀ m ∈ msgs, 0 < m.message_id

/-! ## Notification dispatch (`notifications_runner.run_tick`)

The dispatch tick is modelled single-instance: the store is available
(no reservation failure) and the only nondeterminism — destination
lookup and send outcome — comes from the environment. -/

/-- Environment of one dispatch tick: the subscription table (total on
event foreign keys, which are non-null and enforced), destination
lookup, send outcome, and the opaque text renderers of the
formatters. -/
structure NotifEnv where
  subs : Int → SubRow
  destChatId : Int → Option Int
  sendOk : Int → Str → Bool
  buildLink : Option Str → Option Int → Int → Option Str
  iso : Int → Str
  formatPeriod : Int → Int → Str

/-- `_reserve_match_events`: select the oldest queued rows up to
`BATCH_LIMIT`, flip the still-queued ones to `sending`, return the
reserved ids and the updated table. -/
def reserveMatchEvents (store : List MatchEventRow) :
    List Int × List MatchEventRow :=
  let ids := ((sortByLe (fun a b => decide (a.id ≤ b.id))
      (store.filter (fun e => e.notify_status == STATUS_QUEUED))).take
      BATCH_LIMIT).map (fun e => e.id)
  let store1 := store.map (fun e =>
    if ids.contains e.id && e.notify_status == STATUS_QUEUED then
      { e with notify_status := STATUS_SENDING }
    else e)
  (ids, store1)

/-- Sort key of `_load_match_events_with_subscriptions`:
`ORDER BY subscription_id ASC, id ASC`. -/
def matchRowLe (a b : MatchEventRow × SubRow) : Bool :=
  if a.1.subscription_id = b.1.subscription_id then decide (a.1.id ≤ b.1.id)
  else decide (a.1.subscription_id ≤ b.1.subscription_id)

/-- `_load_match_events_with_subscriptions`: the reserved events joined
with their owning subscription. -/
def loadMatchRows (env : NotifEnv) (store : List MatchEventRow)
    (ids : List Int) : List (MatchEventRow × SubRow) :=
  sortByLe matchRowLe ((store.filter (fun e => ids.contains e.id)).map
    (fun e => (e, env.subs e.subscription_id)))

/-- Grouping key `(owner_user_id, subscription_id)` of the dispatch
loop (`int(sub.owner_user_id or DEV_OWNER_USER_ID)`). -/
def matchRowKey (r : MatchEventRow × SubRow) : Int × Int :=
  (pyOrInt r.2.owner_user_id DEV_OWNER_USER_ID, r.1.subscription_id)

/-- Keys of the grouped dict, in insertion order. -/
def collectKeysAux : List (Int × Int) → List (MatchEventRow × SubRow) →
    List (Int × Int)
  | ks, [] => ks
  | ks, r :: rest =>
    collectKeysAux
      (if ks.contains (matchRowKey r) then ks else ks ++ [matchRowKey r]) rest

/-- Keys of the grouped dict, in insertion order. -/
def collectKeys (rows : List (MatchEventRow × SubRow)) : List (Int × Int) :=
  collectKeysAux [] rows

/-- The rows of one group. -/
def groupRows (rows : List (MatchEventRow × SubRow)) (key : Int × Int) :
    List (MatchEventRow × SubRow) :=
  rows.filter (fun r => matchRowKey r == key)

/-- `_mark_match_events`: `UPDATE match_events SET notify_status = s
WHERE id IN ids`. -/
def markMatchEvents (store : List MatchEventRow) (ids : List Int)
    (status : Str) : List MatchEventRow :=
  store.map (fun e =>
    if ids.contains e.id then { e with notify_status := status } else e)

/-- Terminal status written for one match group: `failed` on a
non-events subscription type, a missing destination, or a failed send;
`sent` on a successful send. -/
def matchGroupOutcome (env : NotifEnv) (owner : Int) (sub : SubRow)
    (events : List MatchEventRow) : Str :=
  if pyLower (pyOrStr (some sub.subscription_type) (lit "events")) ≠ lit "events"
  then STATUS_FAILED
  else
    match env.destChatId owner with
    | none => STATUS_FAILED
    | some chat =>
      if chat = 0 then STATUS_FAILED
      else if env.sendOk chat
          (formatMatchEventsMessage env.iso env.buildLink sub events) then
        STATUS_SENT
      else STATUS_FAILED

/-- Dispatch of one `(owner, subscription)` group: one outbound message
for the whole group, then every event of the group is marked with the
group's terminal status. -/
def dispatchMatchGroup (env : NotifEnv) (rows : List (MatchEventRow × SubRow))
    (store : List MatchEventRow) (key : Int × Int) : List MatchEventRow :=
  match groupRows rows key with
  | [] => store
  | r :: rest =>
    let group := r :: rest
    markMatchEvents store (group.map (fun g => g.1.id))
      (matchGroupOutcome env key.1 r.2 (group.map (fun g => g.1)))

/-- The match-events half of the dispatch `run_tick`: reserve, load,
group, dispatch each group. -/
def dispatchMatchTick (env : NotifEnv) (store : List MatchEventRow) :
    List Int × List MatchEventRow :=
  let rid := reserveMatchEvents store
  let rows := loadMatchRows env rid.2 rid.1
  (rid.1, (collectKeys rows).foldl (dispatchMatchGroup env rows) rid.2)

/-- `_reserve_digest_events`: as for match events. -/
def reserveDigestEvents (store : List DigestEventRow) :
    List Int × List DigestEventRow :=
  let ids := ((sortByLe (fun a b => decide (a.id ≤ b.id))
      (store.filter (fun e => e.notify_status == STATUS_QUEUED))).take
      BATCH_LIMIT).map (fun e => e.id)
  let store1 := store.map (fun e =>
    if ids.contains e.id && e.notify_status == STATUS_QUEUED then
      { e with notify_status := STATUS_SENDING }
    else e)
  (ids, store1)

/-- Sort key of `_load_digest_events_with_subscriptions`. -/
def digestRowLe (a b : DigestEventRow × SubRow) : Bool :=
  if a.1.subscription_id = b.1.subscription_id then decide (a.1.id ≤ b.1.id)
  else decide (a.1.subscription_id ≤ b.1.subscription_id)

/-- `_load_digest_events_with_subscriptions`. -/
def loadDigestRows (env : NotifEnv) (store : List DigestEventRow)
    (ids : List Int) : List (DigestEventRow × SubRow) :=
  sortByLe digestRowLe ((store.filter (fun e => ids.contains e.id)).map
    (fun e => (e, env.subs e.subscription_id)))

/-- `_mark_digest_events`. -/
def markDigestEvents (store : List DigestEventRow) (ids : List Int)
    (status : Str) : List DigestEventRow :=
  store.map (fun e =>
    if ids.contains e.id then { e with notify_status := status } else e)

/-- Terminal status written for one digest event: the type check here
accepts `summary` and `digest` (default empty, not `events`). -/
def digestRowOutcome (env : NotifEnv) (owner : Int) (sub : SubRow)
    (ev : DigestEventRow) : Str :=
  let t := pyLower (pyOrStr (some sub.subscription_type) [])
  if ¬ (t = lit "summary" ∨ t = lit "digest") then STATUS_FAILED
  else
    match env.destChatId owner with
    | none => STATUS_FAILED
    | some chat =>
      if chat = 0 then STATUS_FAILED
      else if env.sendOk chat (formatDigestMessage env.formatPeriod sub ev) then
        STATUS_SENT
      else STATUS_FAILED

/-- Dispatch of one digest row: one outbound message per digest
event. -/
def dispatchDigestRow (env : NotifEnv) (store : List DigestEventRow)
    (r : DigestEventRow × SubRow) : List DigestEventRow :=
  markDigestEvents store [r.1.id]
    (digestRowOutcome env (pyOrInt r.2.owner_user_id DEV_OWNER_USER_ID) r.2 r.1)

/-- The digest-events half of the dispatch `run_tick`. -/
def dispatchDigestTick (env : NotifEnv) (store : List DigestEventRow) :
    List Int × List DigestEventRow :=
  let rid := reserveDigestEvents store
  let rows := loadDigestRows env rid.2 rid.1
  (rid.1, rows.foldl (dispatchDigestRow env) rid.2)

/-- Terminal delivery statuses. -/
def isTerminal (s : Str) : Prop := s = STATUS_SENT ∨ s = STATUS_FAILED

/-! ## Concrete fixtures for witnesses and counterexamples -/

namespace Fix

/-- An active events-mode subscription. -/
def subEvents : SubRow :=
  { id := 1, name := lit "jobs", subscription_type := lit "events",
    chat_ref := lit "@chan", chat_id := some 100, frequency_minutes := 60,
    prompt := lit "вакансии", is_active := true, owner_user_id := some 7,
    status := lit "ok", last_error := none }

/-- The same subscription in digest (`summary`) mode. -/
def subDigest : SubRow := { subEvents with subscription_type := lit "summary" }

/-- The same subscription with an unknown mode. -/
def subUnknown : SubRow := { subEvents with subscription_type := lit "weird" }

/-- A state row holding cursor 5, as left by a lease reservation. -/
def stCursor5 : StateRow :=
  { subscription_id := 1, last_message_id := some 5, last_checked_at := some 40,
    last_success_at := some 40, next_run_at := some 55 }

/-- A due state row (never run). -/
def stDue : StateRow :=
  { subscription_id := 1, last_message_id := none, last_checked_at := none,
    last_success_at := none, next_run_at := none }

/-- A resolved chat entity. -/
def entity : EntityInfo :=
  { id := some 100, title := some (lit "Chan"), username := none }

/-- A fetched message with id 10. -/
def msg10 : Msg :=
  { message_id := 10, message_ts := some (lit "2026-01-10T12:00:00+00:00"),
    author_id := some 42, author_display := some (lit "@bob"),
    text := lit "строим стартап" }

/-- The LLM match item pointing at fetched message 10. -/
def item10 : MatchItem :=
  { message_id := some 10, message_ts := some (lit "2026-01-10T12:00:00+00:00"),
    author_display := some (lit "@bob"), author_id := some 42,
    excerpt := some (lit "строим стартап"), reason := some (lit "подходит") }

/-- An LLM match item pointing at a message id that was never fetched,
with model-authored excerpt and timestamp. -/
def itemFake : MatchItem :=
  { message_id := some 2, message_ts := some (lit "MODEL-TS"),
    author_display := some (lit "Evil"), author_id := some 666,
    excerpt := some (lit "FAKE"), reason := some (lit "r") }

/-- A match event for (subscription 1, message 10) already stored by an
earlier tick. -/
def existingRow10 : MatchEventRow :=
  { id := 1, subscription_id := 1, message_id := 10, message_ts := some 0,
    author_id := some 42, author_display := some (lit "@bob"),
    excerpt := some (lit "строим стартап"), reason := some (lit "подходит"),
    notify_status := STATUS_QUEUED }

/-- Environment of the duplicate-insert scenario: the fetch returns
message 10 again and the LLM matches it again. -/
def envC1 : ProcEnv :=
  { fetch := fun _ _ _ _ => .ok (entity, [msg10]),
    llmMatch := fun _ _ _ => .ok { found := true, «matches» := [item10] },
    llmDigest := fun _ _ _ => .ok { digest_text := some (lit "x"), confidence := none },
    parseIso := fun s => some (Int.ofNat s.length) }

/-- Store of the duplicate-insert scenario: (1, 10) already persisted. -/
def storeC1 : TickStore :=
  { sub := subEvents, state := some stCursor5,
    matchEvents := [existingRow10], digestEvents := [] }

/-- Store of a digest-mode tick whose fetch window is non-empty. -/
def storeC6 : TickStore :=
  { sub := subDigest, state := some stCursor5,
    matchEvents := [], digestEvents := [] }

/-- Environment where the LLM answers with a match for the unfetched
message id 2. -/
def envC7 : ProcEnv :=
  { envC1 with llmMatch := fun _ _ _ => .ok { found := true, «matches» := [itemFake] } }

/-- Store of the model-data-persisted scenario. -/
def storeC7 : TickStore :=
  { sub := subEvents, state := some stCursor5,
    matchEvents := [], digestEvents := [] }

/-- Store of the unknown-mode scenario. -/
def storeC9 : TickStore :=
  { sub := subUnknown, state := some stCursor5,
    matchEvents := [], digestEvents := [] }

/-- Environment whose fetch always returns no messages; it satisfies
both Message Source contracts. -/
def envC4 : ProcEnv :=
  { fetch := fun _ _ _ _ => .ok (entity, []),
    llmMatch := fun _ _ _ => .ok { found := false, «matches» := [] },
    llmDigest := fun _ _ _ => .ok { digest_text := none, confidence := none },
    parseIso := fun _ => none }

/-- A message whose text is 301 characters of `a`. -/
def msgLong : Msg :=
  { message_id := 11, message_ts := some (lit "2026-01-10T12:00:00+00:00"),
    author_id := some 42, author_display := some (lit "@bob"),
    text := List.replicate 301 'a' }

/-- Notification environment: destination known, send always
succeeds. -/
def envN : NotifEnv :=
  { subs := fun sid => if sid = 2 then subDigest else subEvents,
    destChatId := fun _ => some 500,
    sendOk := fun _ _ => true,
    buildLink := fun _ _ _ => none,
    iso := fun _ => lit "2026-01-10T12:00:00+00:00",
    formatPeriod := fun _ _ => lit "10 января 2026" }

/-- A queued match event awaiting dispatch. -/
def queuedMatchRow : MatchEventRow :=
  { id := 1, subscription_id := 1, message_id := 10, message_ts := some 0,
    author_id := some 42, author_display := some (lit "@bob"),
    excerpt := some (lit "hi"), reason := none, notify_status := STATUS_QUEUED }

/-- A queued digest event awaiting dispatch. -/
def queuedDigestRow : DigestEventRow :=
  { id := 1, subscription_id := 2, window_start := some 0,
    window_end := some 120, start_message_id := some 1,
    end_message_id := some 10, digest_text := lit "итоги",
    llm_payload := none, notify_status := STATUS_QUEUED }

end Fix

/-! ## Length-budget theorems -/

theorem length_dropWhile_le (p : Char → Bool) (l : Str) :
    (l.dropWhile p).length ≤ l.length := by
  induction l with
  | nil => simp [List.dropWhile]
  | cons x xs ih =>
    by_cases h : p x
    · simp [List.dropWhile, h]
      omega
    · simp [List.dropWhile, h]

theorem pyRstrip_length_le (s : Str) : (pyRstrip s).length ≤ s.length := by
  unfold pyRstrip
  have h := length_dropWhile_le Char.isWhitespace s.reverse
  simpa using h

theorem clampHard_length_le (t : Str) :
    (clampHard t).length ≤ TG_MSG_HARD_LIMIT := by
  unfold clampHard TG_MSG_HARD_LIMIT
  split
  · have hell : (lit "…").length = 1 := rfl
    simp only [List.length_append, List.length_take, hell]
    omega
  · omega

/-- C2: for every list of match events (including the empty list and
events whose excerpt or link exceeds the budget by itself) the text of
the match-events message formatter, and likewise the text of the digest
message formatter, has length at most the hard budget of 4096
characters. -/
theorem formatterLengthWithinBudget :
    (∀ (iso : Int → Str) (buildLink : Option Str → Option Int → Int → Option Str)
        (sub : SubRow) (events : List MatchEventRow),
        (formatMatchEventsMessage iso buildLink sub events).length ≤ 4096) ∧
    (∀ (formatPeriod : Int → Int → Str) (sub : SubRow) (ev : DigestEventRow),
        (formatDigestMessage formatPeriod sub ev).length ≤ 4096) := by
  constructor
  · intro iso buildLink sub events
    exact clampHard_length_le (matchMessageRaw iso buildLink sub events)
  · intro formatPeriod sub ev
    exact clampHard_length_le (digestMessageRaw formatPeriod sub ev)

/-! ## Scheduler theorems (C5) -/

/-- C5: every state row selected by the reservation step is stamped
with `last_checked_at = now` and `next_run_at = now + leaseDuration`
within that same step, so immediately afterwards `next_run_at` is
strictly in the future and the row no longer satisfies the due
predicate. -/
theorem reserveLeaseInvariant (rows : List (StateRow × SubRow)) (now : Int) :
    ∀ r ∈ (reserveDueSubscriptions rows now).2,
      r.1.last_checked_at = some now ∧
      r.1.next_run_at = some (now + LEASE_MINUTES) ∧
      now < now + LEASE_MINUTES ∧
      dueB r.1 now = false := by
  intro r hr
  have hex : ∃ r0 : StateRow × SubRow, r = (leaseStamp now r0.1, r0.2) := by
    unfold reserveDueSubscriptions at hr
    simp only [List.mem_map] at hr
    obtain ⟨r0, _, h⟩ := hr
    exact ⟨r0, h.symm⟩
  obtain ⟨r0, rfl⟩ := hex
  refine ⟨rfl, rfl, ?_, ?_⟩
  · unfold LEASE_MINUTES
    omega
  · simp only [dueB, leaseStamp]
    rw [decide_eq_false]
    unfold LEASE_MINUTES
    omega

/-- Witness for C5: a concrete due row reserved at time 50. -/
theorem reserveLeaseInvariant_witness :
    (leaseStamp 50 Fix.stDue).last_checked_at = some 50 ∧
    (leaseStamp 50 Fix.stDue).next_run_at = some (50 + LEASE_MINUTES) ∧
    (50 : Int) < 50 + LEASE_MINUTES ∧
    dueB (leaseStamp 50 Fix.stDue) 50 = false :=
  reserveLeaseInvariant [(Fix.stDue, Fix.subEvents)] 50
    (leaseStamp 50 Fix.stDue, Fix.subEvents) (by decide)

/-! ## Excerpt-cap theorems (C10) -/

set_option maxRecDepth 8192 in
/-- C10 counterexample: a 301-character source text is persisted with a
301-character excerpt — the appended ellipsis makes the stored excerpt
exceed the 300-character cap. -/
theorem excerptCapCounterexample :
    ((buildMatchEventRow Fix.envC1 1 [Fix.msgLong]
        { Fix.item10 with message_id := some 11 } 11).excerpt.getD []).length
      = 301 ∧
    ¬ ((buildMatchEventRow Fix.envC1 1 [Fix.msgLong]
        { Fix.item10 with message_id := some 11 } 11).excerpt.getD []).length
      ≤ 300 := by
  decide

/-- C10 amended: the persisted excerpt has length at most 301
characters; when the selected source text is longer than 300
characters, the stored excerpt is the right-stripped 300-character
prefix with an ellipsis appended, so it ends in `…`. -/
theorem excerptCapAmended :
    ∀ (src : Option Msg) (itemExcerpt : Option Str),
      (matchExcerptSource src itemExcerpt).length ≤ 301 ∧
      (300 < (excerptBase src itemExcerpt).length →
        (matchExcerptSource src itemExcerpt).getLast? = some '…') := by
  intro src itemExcerpt
  constructor
  · unfold matchExcerptSource capExcerpt
    split
    · have h1 := pyRstrip_length_le ((excerptBase src itemExcerpt).take 300)
      have h2 : ((excerptBase src itemExcerpt).take 300).length ≤ 300 := by
        simp [List.length_take]
      have h3 : (lit "…").length = 1 := rfl
      simp only [List.length_append]
      omega
    · omega
  · intro h
    unfold matchExcerptSource capExcerpt
    rw [if_pos (by omega)]
    have h4 : lit "…" = ['…'] := rfl
    rw [h4]
    exact List.getLast?_concat _

set_option maxRecDepth 8192 in
/-- Witness for C10 amended at the 301-character source text. -/
theorem excerptCapAmended_witness :
    (matchExcerptSource (some Fix.msgLong) none).length ≤ 301 ∧
    (matchExcerptSource (some Fix.msgLong) none).getLast? = some '…' :=
  ⟨(excerptCapAmended (some Fix.msgLong) none).1,
   (excerptCapAmended (some Fix.msgLong) none).2 (by decide)⟩

/-! ## Processor helper lemmas -/

theorem digestKwargsRejected :
    ormKwargsAccepted digestEventColumns digestInsertKwargNames = false := by
  decide

theorem constructDigestEvent_error (subId ws we : Int)
    (startId endId : Option Int) (text : Str) (payload : Option Str) :
    constructDigestEvent subId ws we startId endId text payload =
      .error (lit "TypeError: window_start_at is an invalid keyword argument for DigestEvent") := by
  simp [constructDigestEvent, digestKwargsRejected]

theorem retrySchedule_sub (now : Int) (store : TickStore) :
    (retrySchedule now store).sub = store.sub := by
  unfold retrySchedule
  cases store.state <;> rfl

theorem retrySchedule_matchEvents (now : Int) (store : TickStore) :
    (retrySchedule now store).matchEvents = store.matchEvents := by
  unfold retrySchedule
  cases store.state <;> rfl

theorem retrySchedule_digestEvents (now : Int) (store : TickStore) :
    (retrySchedule now store).digestEvents = store.digestEvents := by
  unfold retrySchedule
  cases store.state <;> rfl

theorem retrySchedule_state (now : Int) (store : TickStore) :
    (retrySchedule now store).state =
      Option.map (fun st => { st with next_run_at := some (now + RETRY_MINUTES) })
        store.state := by
  unfold retrySchedule
  cases h : store.state <;> simp [h]

theorem digestBranch_digestEvents (env : ProcEnv) (now : Int) (store : TickStore) :
    ((digestBranch env now store).1).digestEvents = store.digestEvents := by
  simp only [digestBranch]
  split
  · simp [failResult, retrySchedule_digestEvents]
  · split
    · rfl
    · split
      · simp [failResult, retrySchedule_digestEvents]
      · split
        · simp [failResult, retrySchedule_digestEvents]
        · rename_i heq
          rw [constructDigestEvent_error] at heq
          exact Except.noConfusion heq

theorem eventsBranch_digestEvents (env : ProcEnv) (now : Int) (store : TickStore) :
    ((eventsBranch env now store).1).digestEvents = store.digestEvents := by
  simp only [eventsBranch]
  split
  · simp [failResult, retrySchedule_digestEvents]
  · split
    · split
      · rfl
      · rfl
    · split
      · simp [failResult, retrySchedule_digestEvents]
      · split
        · simp [failResult, retrySchedule_digestEvents]
        · rfl

theorem runTickOne_digestEvents (env : ProcEnv) (now : Int) (store : TickStore) :
    ((runTickOne env now store).1).digestEvents = store.digestEvents := by
  unfold runTickOne
  split
  · exact digestBranch_digestEvents env now store
  · exact eventsBranch_digestEvents env now store

/-! ## Digest persist-bug theorems (C6) -/

/-- C6: the digest persist step constructs `DigestEvent` with keyword
arguments `window_start_at`/`window_end_at`, which are not columns of
the model (the columns are `window_start`/`window_end`), so the
constructor raises; every digest-mode tick whose fetch returns at least
one message fails at the persist step, and no digest event is ever
stored by the processor. -/
theorem digestPersistAlwaysFails :
    (ormKwargsAccepted digestEventColumns digestInsertKwargNames = false) ∧
    (∀ (env : ProcEnv) (now : Int) (store : TickStore),
      ((runTickOne env now store).1).digestEvents = store.digestEvents) ∧
    (∀ (env : ProcEnv) (now : Int) (store : TickStore) (ent : EntityInfo)
        (msgs : List Msg),
      effectiveType store.sub = lit "digest" →
      env.fetch (subOwner store.sub) store.sub.chat_ref
          (now - subFreq store.sub) none = .ok (ent, msgs) →
      msgs ≠ [] →
      (runTickOne env now store).2 = false) := by
  refine ⟨digestKwargsRejected, runTickOne_digestEvents, ?_⟩
  intro env now store ent msgs htype hfetch hne
  have hb : (effectiveType store.sub == lit "digest") = true := by
    rw [htype]
    exact beq_self_eq_true _
  have hemp : msgs.isEmpty = false := by
    cases msgs with
    | nil => exact absurd rfl hne
    | cons a l => rfl
  unfold runTickOne
  rw [if_pos hb]
  simp only [digestBranch, hfetch, hemp, Bool.false_eq_true, if_false]
  split
  · rfl
  · split
    · rfl
    · rename_i heq
      rw [constructDigestEvent_error] at heq
      exact Except.noConfusion heq

/-- Witness for C6: a concrete digest tick over one fetched message
fails. -/
theorem digestPersistAlwaysFails_witness :
    effectiveType Fix.storeC6.sub = lit "digest" ∧
    ([Fix.msg10] : List Msg) ≠ [] ∧
    (runTickOne Fix.envC1 60 Fix.storeC6).2 = false :=
  ⟨by decide, by decide,
   digestPersistAlwaysFails.2.2 Fix.envC1 60 Fix.storeC6 Fix.entity [Fix.msg10]
     (by decide) rfl (by decide)⟩

/-! ## Duplicate-insert theorems (C1) -/

set_option maxRecDepth 8192 in
/-- C1 evaluated at the failing input: with (subscription 1, message
10) already stored, a tick whose analysis matches message 10 again hits
the unique constraint at commit.  The insert is not ignored: the whole
per-subscription transaction fails and is rolled back (the tick does
not succeed), the table keeps the single original row, and the
subscription is rescheduled for the short retry. -/
theorem duplicateMatchInsertFailsTick :
    (runTickOne Fix.envC1 60 Fix.storeC1).2 = false ∧
    ((runTickOne Fix.envC1 60 Fix.storeC1).1).matchEvents = [Fix.existingRow10] ∧
    ((runTickOne Fix.envC1 60 Fix.storeC1).1).state =
      some { Fix.stCursor5 with next_run_at := some 62 } := by
  decide

/-! ## Failure-path helper lemmas -/

theorem updateChatId_fields (sub : SubRow) (ent : EntityInfo) :
    (updateChatId sub ent).status = sub.status ∧
    (updateChatId sub ent).last_error = sub.last_error ∧
    (updateChatId sub ent).subscription_type = sub.subscription_type ∧
    (updateChatId sub ent).id = sub.id := by
  unfold updateChatId
  split
  · exact ⟨rfl, rfl, rfl, rfl⟩
  · split
    · exact ⟨rfl, rfl, rfl, rfl⟩
    · exact ⟨rfl, rfl, rfl, rfl⟩

theorem eventsBranch_fail (env : ProcEnv) (now : Int) (store : TickStore) :
    (eventsBranch env now store).2 = false →
    (eventsBranch env now store).1 = retrySchedule now store := by
  simp only [eventsBranch]
  split
  · intro _
    rfl
  · split
    · split
      · intro h
        simp at h
      · intro h
        simp at h
    · split
      · intro _
        rfl
      · split
        · intro _
          rfl
        · intro h
          simp at h

theorem digestBranch_fail (env : ProcEnv) (now : Int) (store : TickStore) :
    (digestBranch env now store).2 = false →
    ∃ s0 : TickStore, s0.state = store.state ∧
      s0.sub.status = store.sub.status ∧
      s0.sub.last_error = store.sub.last_error ∧
      s0.matchEvents = store.matchEvents ∧
      s0.digestEvents = store.digestEvents ∧
      (digestBranch env now store).1 = retrySchedule now s0 := by
  simp only [digestBranch]
  split
  · intro _
    exact ⟨store, rfl, rfl, rfl, rfl, rfl, rfl⟩
  · rename_i ent msgs _
    split
    · intro h
      simp at h
    · split
      · intro _
        exact ⟨{ store with sub := updateChatId store.sub ent }, rfl,
          (updateChatId_fields store.sub ent).1,
          (updateChatId_fields store.sub ent).2.1, rfl, rfl, rfl⟩
      · split
        · intro _
          exact ⟨{ store with sub := updateChatId store.sub ent }, rfl,
            (updateChatId_fields store.sub ent).1,
            (updateChatId_fields store.sub ent).2.1, rfl, rfl, rfl⟩
        · intro h
          simp at h

theorem eventsBranch_health (env : ProcEnv) (now : Int) (store : TickStore) :
    ((eventsBranch env now store).1).sub.status = store.sub.status ∧
    ((eventsBranch env now store).1).sub.last_error = store.sub.last_error := by
  simp only [eventsBranch]
  split
  · constructor <;> simp [failResult, retrySchedule_sub]
  · split
    · split
      · exact ⟨(updateChatId_fields _ _).1, (updateChatId_fields _ _).2.1⟩
      · exact ⟨(updateChatId_fields _ _).1, (updateChatId_fields _ _).2.1⟩
    · split
      · constructor <;> simp [failResult, retrySchedule_sub]
      · split
        · constructor <;> simp [failResult, retrySchedule_sub]
        · exact ⟨(updateChatId_fields _ _).1, (updateChatId_fields _ _).2.1⟩

/-! ## Failure-handling theorems (C8) -/

set_option maxRecDepth 8192 in
/-- C8 counterexample: a failing tick (digest mode, non-empty fetch)
does not record any error on the subscription's health fields — the
claim requires the error to be recorded there, but `status` stays `ok`
and `last_error` stays empty. -/
theorem failedTickHealthCounterexample :
    (runTickOne Fix.envC1 60 Fix.storeC6).2 = false ∧
    ((runTickOne Fix.envC1 60 Fix.storeC6).1).sub.status = lit "ok" ∧
    ((runTickOne Fix.envC1 60 Fix.storeC6).1).sub.last_error = none := by
  decide

/-- C8 amended: a subscription whose processing fails after reservation
does not advance `last_success_at` (the only state change is the retry
stamp `next_run_at = now + RETRY_MINUTES`, written in its own isolated
transaction), leaves both event tables untouched, leaves the
subscription's health fields (`status`, `last_error`) unwritten, and
the per-subscription loop still processes every sibling independently
(`RETRY_MINUTES = 2`, materially shorter than the default 60-minute
interval). -/
theorem failedTickIsolatedRetry :
    ∀ (env : ProcEnv) (now : Int) (store : TickStore),
      (runTickOne env now store).2 = false →
      ((runTickOne env now store).1).state =
        Option.map (fun st => { st with next_run_at := some (now + RETRY_MINUTES) })
          store.state ∧
      ((runTickOne env now store).1).sub.status = store.sub.status ∧
      ((runTickOne env now store).1).sub.last_error = store.sub.last_error ∧
      ((runTickOne env now store).1).matchEvents = store.matchEvents ∧
      ((runTickOne env now store).1).digestEvents = store.digestEvents ∧
      RETRY_MINUTES = 2 ∧
      (∀ stores : List TickStore,
        runTickBatch env now stores = stores.map (fun s => runTickOne env now s)) := by
  intro env now store h
  unfold runTickOne at h ⊢
  by_cases hd : (effectiveType store.sub == lit "digest") = true
  · rw [if_pos hd] at h ⊢
    obtain ⟨s0, hst, hsts, herr, hme, hde, heq⟩ := digestBranch_fail env now store h
    rw [heq]
    refine ⟨?_, ?_, ?_, ?_, ?_, rfl, fun stores => rfl⟩
    · rw [retrySchedule_state, hst]
    · rw [retrySchedule_sub, hsts]
    · rw [retrySchedule_sub, herr]
    · rw [retrySchedule_matchEvents, hme]
    · rw [retrySchedule_digestEvents, hde]
  · rw [if_neg hd] at h ⊢
    rw [eventsBranch_fail env now store h]
    exact ⟨retrySchedule_state now store, retrySchedule_sub now store ▸ rfl,
      retrySchedule_sub now store ▸ rfl, retrySchedule_matchEvents now store,
      retrySchedule_digestEvents now store, rfl, fun stores => rfl⟩

set_option maxRecDepth 8192 in
/-- Witness for C8 amended: the concrete failing digest tick. -/
theorem failedTickIsolatedRetry_witness :
    ((runTickOne Fix.envC1 60 Fix.storeC6).1).state =
      Option.map (fun st => { st with next_run_at := some (60 + RETRY_MINUTES) })
        Fix.storeC6.state ∧
    ((runTickOne Fix.envC1 60 Fix.storeC6).1).sub.status = Fix.storeC6.sub.status ∧
    ((runTickOne Fix.envC1 60 Fix.storeC6).1).sub.last_error
      = Fix.storeC6.sub.last_error ∧
    ((runTickOne Fix.envC1 60 Fix.storeC6).1).matchEvents
      = Fix.storeC6.matchEvents ∧
    ((runTickOne Fix.envC1 60 Fix.storeC6).1).digestEvents
      = Fix.storeC6.digestEvents ∧
    RETRY_MINUTES = 2 ∧
    (∀ stores : List TickStore,
      runTickBatch Fix.envC1 60 stores
        = stores.map (fun s => runTickOne Fix.envC1 60 s)) :=
  failedTickIsolatedRetry Fix.envC1 60 Fix.storeC6 (by decide)

/-! ## Unknown-mode theorems (C9) -/

set_option maxRecDepth 8192 in
/-- C9 counterexample: a subscription whose mode is `weird` (neither
events nor digest) is not failed terminally — the tick runs the full
events pipeline: the fetch and the analysis happen and a match event is
stored, the tick succeeds, and health stays `ok` instead of `error`. -/
theorem unknownModeCounterexample :
    (runTickOne Fix.envC1 60 Fix.storeC9).2 = true ∧
    ((runTickOne Fix.envC1 60 Fix.storeC9).1).matchEvents.length = 1 ∧
    ((runTickOne Fix.envC1 60 Fix.storeC9).1).sub.status = lit "ok" := by
  decide

/-- C9 amended: the processor has no unknown-mode branch — every mode
other than `digest`/`summary` is processed exactly as events mode
(fetch and analysis are performed), and the processor never writes the
subscription's health fields. -/
theorem unknownModeFallsThroughToEvents :
    ∀ (env : ProcEnv) (now : Int) (store : TickStore),
      effectiveType store.sub ≠ lit "digest" →
      runTickOne env now store = eventsBranch env now store ∧
      ((runTickOne env now store).1).sub.status = store.sub.status ∧
      ((runTickOne env now store).1).sub.last_error = store.sub.last_error := by
  intro env now store h
  have hb : (effectiveType store.sub == lit "digest") = false := by
    simpa using h
  have hrw : runTickOne env now store = eventsBranch env now store := by
    unfold runTickOne
    rw [hb]
    simp
  refine ⟨hrw, ?_, ?_⟩
  · rw [hrw]
    exact (eventsBranch_health env now store).1
  · rw [hrw]
    exact (eventsBranch_health env now store).2

set_option maxRecDepth 8192 in
/-- Witness for C9 amended at the concrete `weird`-mode
subscription. -/
theorem unknownModeFallsThroughToEvents_witness :
    runTickOne Fix.envC1 60 Fix.storeC9 = eventsBranch Fix.envC1 60 Fix.storeC9 ∧
    ((runTickOne Fix.envC1 60 Fix.storeC9).1).sub.status = Fix.storeC9.sub.status ∧
    ((runTickOne Fix.envC1 60 Fix.storeC9).1).sub.last_error
      = Fix.storeC9.sub.last_error :=
  unknownModeFallsThroughToEvents Fix.envC1 60 Fix.storeC9 (by decide)

/-! ## Source-of-truth theorems (C7) -/

set_option maxRecDepth 8192 in
/-- C7 counterexample: the LLM answers with a match for message id 2,
which was never fetched; the tick still persists a match event whose
excerpt (`FAKE`) and timestamp come from the model's response, not from
any source message. -/
theorem modelDataPersistedCounterexample :
    (runTickOne Fix.envC7 60 Fix.storeC7).2 = true ∧
    ((runTickOne Fix.envC7 60 Fix.storeC7).1).matchEvents =
      [{ id := 1, subscription_id := 1, message_id := 2,
         message_ts := some 8, author_id := none, author_display := none,
         excerpt := some (lit "FAKE"), reason := some (lit "r"),
         notify_status := STATUS_QUEUED }] ∧
    (∀ m ∈ [Fix.msg10], pyStrip m.text ≠ lit "FAKE") := by
  decide

/-- C7 amended: whenever the matched message id is present in the
fetched batch (and the fetched message has the shape
`fetch_chat_messages_for_subscription` produces: non-empty stripped
text and a timestamp), the persisted author, timestamp and excerpt are
taken from the source message and the model contributes only the id
and the reason; when the id is not in the batch, the author fields are
null and excerpt/timestamp fall back to the model's response. -/
theorem matchFieldsFromSource :
    ∀ (env : ProcEnv) (subId : Int) (msgs : List Msg) (item : MatchItem)
      (mid : Int) (src : Msg),
      msgById msgs mid = some src →
      pyStrip src.text ≠ [] →
      strTruthy src.message_ts = true →
      (buildMatchEventRow env subId msgs item mid).author_id = src.author_id ∧
      (buildMatchEventRow env subId msgs item mid).author_display
        = src.author_display ∧
      (buildMatchEventRow env subId msgs item mid).excerpt
        = some (capExcerpt (pyStrip src.text)) ∧
      (buildMatchEventRow env subId msgs item mid).message_ts
        = parseIsoOpt env src.message_ts ∧
      (buildMatchEventRow env subId msgs item mid).message_id = mid ∧
      (buildMatchEventRow env subId msgs item mid).reason = item.reason := by
  intro env subId msgs item mid src hsrc hex hts
  have hemp : (pyStrip src.text).isEmpty = false := by
    cases hp : pyStrip src.text with
    | nil => exact absurd hp hex
    | cons a l => rfl
  refine ⟨?_, ?_, ?_, ?_, ?_, ?_⟩ <;>
    simp only [buildMatchEventRow, hsrc, matchExcerptSource, excerptBase, hemp,
      Bool.false_eq_true, if_false, matchTsSource, hts, if_true]

set_option maxRecDepth 8192 in
/-- Witness for C7 amended: the matched id 10 is in the fetched batch,
so all three fields come from the source message. -/
theorem matchFieldsFromSource_witness :
    (buildMatchEventRow Fix.envC1 1 [Fix.msg10] Fix.item10 10).author_id
      = Fix.msg10.author_id ∧
    (buildMatchEventRow Fix.envC1 1 [Fix.msg10] Fix.item10 10).author_display
      = Fix.msg10.author_display ∧
    (buildMatchEventRow Fix.envC1 1 [Fix.msg10] Fix.item10 10).excerpt
      = some (capExcerpt (pyStrip Fix.msg10.text)) ∧
    (buildMatchEventRow Fix.envC1 1 [Fix.msg10] Fix.item10 10).message_ts
      = parseIsoOpt Fix.envC1 Fix.msg10.message_ts ∧
    (buildMatchEventRow Fix.envC1 1 [Fix.msg10] Fix.item10 10).message_id = 10 ∧
    (buildMatchEventRow Fix.envC1 1 [Fix.msg10] Fix.item10 10).reason
      = Fix.item10.reason :=
  matchFieldsFromSource Fix.envC1 1 [Fix.msg10] Fix.item10 10 Fix.msg10
    (by decide) (by decide) (by decide)

/-! ## Cursor-monotonicity theorems (C4) -/

theorem cursorLe_refl (o : Option Int) : cursorLe o o :=
  fun c h => ⟨c, h, le_refl c⟩

theorem cursorLe_none (n : Option Int) : cursorLe none n :=
  fun _ h => Option.noConfusion h

theorem cursorLe_some_some {c M : Int} (h : c ≤ M) : cursorLe (some c) (some M) := by
  intro x hx
  have hcx : c = x := Option.some.inj hx
  subst hcx
  exact ⟨M, rfl, h⟩

theorem cursorLe_trans {a b c : Option Int} (h1 : cursorLe a b)
    (h2 : cursorLe b c) : cursorLe a c := by
  intro x hx
  obtain ⟨y, hy, hxy⟩ := h1 x hx
  obtain ⟨z, hz, hyz⟩ := h2 y hy
  exact ⟨z, hz, le_trans hxy hyz⟩

theorem le_foldl_max (l : List Int) (a : Int) : a ≤ l.foldl max a := by
  induction l generalizing a with
  | nil => exact le_refl a
  | cons b l ih => exact le_trans (le_max_left a b) (ih (max a b))

theorem mem_le_foldl_max (l : List Int) (a : Int) : ∀ x ∈ l, x ≤ l.foldl max a := by
  induction l generalizing a with
  | nil =>
    intro x hx
    cases hx
  | cons b l ih =>
    intro x hx
    rcases List.mem_cons.mp hx with rfl | hx2
    · exact le_trans (le_max_right a x) (le_foldl_max l (max a x))
    · exact ih (max a b) x hx2

theorem pyMax_ge (l : List Int) (M : Int) (h : pyMax l = some M) :
    ∀ x ∈ l, x ≤ M := by
  cases l with
  | nil => exact absurd h (by simp [pyMax])
  | cons a t =>
    intro x hx
    have hM : t.foldl max a = M := by simpa [pyMax] using h
    rcases List.mem_cons.mp hx with rfl | hx2
    · rw [← hM]
      exact le_foldl_max t x
    · rw [← hM]
      exact mem_le_foldl_max t a x hx2

theorem retrySchedule_cursor (now : Int) (store : TickStore) :
    cursorOf (retrySchedule now store) = cursorOf store := by
  unfold cursorOf
  rw [retrySchedule_state]
  cases h : store.state <;> simp [h]

theorem digestBranch_cursor (env : ProcEnv) (now : Int) (store : TickStore) :
    cursorOf (digestBranch env now store).1 = cursorOf store := by
  simp only [digestBranch]
  split
  · simp [failResult, retrySchedule_cursor]
  · split
    · cases h : store.state <;>
        simp [h, cursorOf, advanceSuccess, freshState]
    · split
      · simp only [failResult]
        rw [retrySchedule_cursor]
        simp [cursorOf]
      · split
        · simp only [failResult]
          rw [retrySchedule_cursor]
          simp [cursorOf]
        · rename_i heq
          rw [constructDigestEvent_error] at heq
          exact Except.noConfusion heq

theorem eventsBranch_cursor (env : ProcEnv) (now : Int) (store : TickStore)
    (h1 : fetchHonorsCursor env) (h2 : fetchIdsPositive env) :
    cursorLe (cursorOf store) (cursorOf (eventsBranch env now store).1) := by
  cases hst : store.state with
  | none =>
    have hn : cursorOf store = none := by simp [cursorOf, hst]
    rw [hn]
    exact cursorLe_none _
  | some s =>
    cases hlm : s.last_message_id with
    | none =>
      have hn : cursorOf store = none := by simp [cursorOf, hst, hlm]
      rw [hn]
      exact cursorLe_none _
    | some c =>
      have hcs : cursorOf store = some c := by simp [cursorOf, hst, hlm]
      rw [hcs]
      have hfr : cursorOf (failResult now store).1 = some c := by
        simp only [failResult]
        rw [retrySchedule_cursor]
        exact hcs
      by_cases hc0 : c = 0
      · rcases hf : env.fetch (subOwner store.sub) store.sub.chat_ref
            (now - subFreq store.sub) none with e | ⟨ent, msgs⟩
        · simp only [eventsBranch, hst, hlm, if_pos hc0, hf]
          rw [hfr]
          exact cursorLe_refl _
        · have hub : ∀ m ∈ msgs, 0 < m.message_id :=
            h2 _ _ _ _ _ _ hf
          cases msgs with
          | nil =>
            simp only [eventsBranch, hst, hlm, if_pos hc0, hf, List.isEmpty_nil,
              if_true]
            simp [cursorOf, advanceSuccess, hlm]
            exact cursorLe_refl _
          | cons m0 rest =>
            rcases hllm : env.llmMatch (updateChatId store.sub ent).prompt
                (chatTitle ent) (m0 :: rest) with e | resp
            · simp only [eventsBranch, hst, hlm, if_pos hc0, hf, hllm,
                List.isEmpty_cons, Bool.false_eq_true, if_false]
              rw [hfr]
              exact cursorLe_refl _
            · rcases hins : insertMatchEvents store.matchEvents
                  (buildMatchEvents env (updateChatId store.sub ent).id (m0 :: rest)
                    resp.«matches») with e | table
              · simp only [eventsBranch, hst, hlm, if_pos hc0, hf, hllm, hins,
                  List.isEmpty_cons, Bool.false_eq_true, if_false]
                rw [hfr]
                exact cursorLe_refl _
              · simp only [eventsBranch, hst, hlm, if_pos hc0, hf, hllm, hins,
                  List.isEmpty_cons, Bool.false_eq_true, if_false,
                  List.map_cons, pyMax]
                simp only [cursorOf, advanceSuccess]
                have hcM := pyMax_ge ((m0 :: rest).map (fun m => m.message_id)) _ rfl
                  m0.message_id (by simp)
                by_cases hM0 : (rest.map (fun m => m.message_id)).foldl max
                    m0.message_id = 0
                · rw [if_pos hM0, hlm]
                  exact cursorLe_refl _
                · rw [if_neg hM0]
                  refine cursorLe_some_some ?_
                  have hm0 : 0 < m0.message_id := hub m0 (by simp)
                  have : m0.message_id ≤ (rest.map (fun m => m.message_id)).foldl
                      max m0.message_id := le_foldl_max _ _
                  omega
      · rcases hf : env.fetch (subOwner store.sub) store.sub.chat_ref EPOCH_1970
            (some c) with e | ⟨ent, msgs⟩
        · simp only [eventsBranch, hst, hlm, if_neg hc0, hf]
          rw [hfr]
          exact cursorLe_refl _
        · have hub : ∀ m ∈ msgs, c < m.message_id :=
            h1 _ _ _ _ _ _ hf
          cases msgs with
          | nil =>
            simp only [eventsBranch, hst, hlm, if_neg hc0, hf, List.isEmpty_nil,
              if_true]
            simp [cursorOf, advanceSuccess, hlm]
            exact cursorLe_refl _
          | cons m0 rest =>
            rcases hllm : env.llmMatch (updateChatId store.sub ent).prompt
                (chatTitle ent) (m0 :: rest) with e | resp
            · simp only [eventsBranch, hst, hlm, if_neg hc0, hf, hllm,
                List.isEmpty_cons, Bool.false_eq_true, if_false]
              rw [hfr]
              exact cursorLe_refl _
            · rcases hins : insertMatchEvents store.matchEvents
                  (buildMatchEvents env (updateChatId store.sub ent).id (m0 :: rest)
                    resp.«matches») with e | table
              · simp only [eventsBranch, hst, hlm, if_neg hc0, hf, hllm, hins,
                  List.isEmpty_cons, Bool.false_eq_true, if_false]
                rw [hfr]
                exact cursorLe_refl _
              · simp only [eventsBranch, hst, hlm, if_neg hc0, hf, hllm, hins,
                  List.isEmpty_cons, Bool.false_eq_true, if_false,
                  List.map_cons, pyMax]
                simp only [cursorOf, advanceSuccess]
                have hm0 : c < m0.message_id := hub m0 (by simp)
                have hle : m0.message_id ≤ (rest.map (fun m => m.message_id)).foldl
                    max m0.message_id := le_foldl_max _ _
                by_cases hM0 : (rest.map (fun m => m.message_id)).foldl max
                    m0.message_id = 0
                · rw [if_pos hM0, hlm]
                  exact cursorLe_refl _
                · rw [if_neg hM0]
                  exact cursorLe_some_some (by omega)

theorem runTickOne_cursor (env : ProcEnv) (now : Int) (store : TickStore)
    (h1 : fetchHonorsCursor env) (h2 : fetchIdsPositive env) :
    cursorLe (cursorOf store) (cursorOf (runTickOne env now store).1) := by
  unfold runTickOne
  split
  · rw [digestBranch_cursor]
    exact cursorLe_refl _
  · exact eventsBranch_cursor env now store h1 h2

/-- C4: across any sequence of processor ticks (events mode or digest
mode, with or without messages), the stored cursor `last_message_id`
never decreases, provided each tick's Message Source adapter honors its
contract (an exclusive id floor when a cursor is passed, and positive
Telegram message ids). -/
theorem cursorNeverDecreases :
    ∀ (ticks : List (ProcEnv × Int)),
      (∀ t ∈ ticks, fetchHonorsCursor t.1 ∧ fetchIdsPositive t.1) →
      ∀ store : TickStore,
        cursorLe (cursorOf store)
          (cursorOf (ticks.foldl (fun s t => (runTickOne t.1 t.2 s).1) store)) := by
  intro ticks
  induction ticks with
  | nil =>
    intro _ store
    exact cursorLe_refl _
  | cons t ts ih =>
    intro h store
    simp only [List.foldl_cons]
    exact cursorLe_trans
      (runTickOne_cursor t.1 t.2 store (h t (List.mem_cons_self t ts)).1
        (h t (List.mem_cons_self t ts)).2)
      (ih (fun x hx => h x (List.mem_cons_of_mem t hx)) _)

/-- Witness for C4: one concrete tick under a contract-satisfying
adapter, starting from cursor 5. -/
theorem cursorNeverDecreases_witness :
    cursorLe (cursorOf Fix.storeC1)
      (cursorOf (([(Fix.envC4, 60)] : List (ProcEnv × Int)).foldl
        (fun s t => (runTickOne t.1 t.2 s).1) Fix.storeC1)) := by
  refine cursorNeverDecreases [(Fix.envC4, 60)] ?_ Fix.storeC1
  intro t ht
  have hts : t = (Fix.envC4, 60) := by simpa using ht
  subst hts
  constructor
  · intro owner ref since c ent msgs h m hm
    simp only [Fix.envC4, Except.ok.injEq, Prod.mk.injEq] at h
    rw [← h.2] at hm
    cases hm
  · intro owner ref since minId ent msgs h m hm
    simp only [Fix.envC4, Except.ok.injEq, Prod.mk.injEq] at h
    rw [← h.2] at hm
    cases hm

/-! ## Dispatch-termination theorems (C3) -/

theorem isTerminal_sent : isTerminal STATUS_SENT := Or.inl rfl

theorem isTerminal_failed : isTerminal STATUS_FAILED := Or.inr rfl

theorem matchGroupOutcome_terminal (env : NotifEnv) (owner : Int) (sub : SubRow)
    (events : List MatchEventRow) :
    isTerminal (matchGroupOutcome env owner sub events) := by
  unfold matchGroupOutcome
  split
  · exact isTerminal_failed
  · split
    · exact isTerminal_failed
    · split
      · exact isTerminal_failed
      · split
        · exact isTerminal_sent
        · exact isTerminal_failed

theorem digestRowOutcome_terminal (env : NotifEnv) (owner : Int) (sub : SubRow)
    (ev : DigestEventRow) :
    isTerminal (digestRowOutcome env owner sub ev) := by
  simp only [digestRowOutcome]
  split
  · exact isTerminal_failed
  · split
    · exact isTerminal_failed
    · split
      · exact isTerminal_failed
      · split
        · exact isTerminal_sent
        · exact isTerminal_failed

/-- A fold of mark-terminal steps: any element of the result either
carries a terminal status, or is an untouched element of the initial
store whose id belongs to no processed group. -/
theorem foldl_mark_terminal {α κ : Type}
    (idOf : α → Int) (stOf : α → Str) (setSt : α → Str → α)
    (hset : ∀ e s, stOf (setSt e s) = s)
    (gids : κ → List Int)
    (step : List α → κ → List α)
    (hstep : ∀ acc k,
      (step acc k = acc ∧ gids k = []) ∨
      (∃ st, isTerminal st ∧
        step acc k = acc.map (fun e =>
          if (gids k).contains (idOf e) then setSt e st else e))) :
    ∀ (ks : List κ) (acc : List α) (e : α), e ∈ ks.foldl step acc →
      isTerminal (stOf e) ∨
      ∃ e0, e0 ∈ acc ∧ idOf e0 = idOf e ∧ stOf e = stOf e0 ∧
        ∀ k ∈ ks, (gids k).contains (idOf e) = false := by
  intro ks
  induction ks with
  | nil =>
    intro acc e he
    exact Or.inr ⟨e, he, rfl, rfl, fun k hk => absurd hk (List.not_mem_nil k)⟩
  | cons k ks ih =>
    intro acc e he
    simp only [List.foldl_cons] at he
    rcases ih (step acc k) e he with hterm | ⟨e1, he1, hid1, hst1, hnot⟩
    · exact Or.inl hterm
    · rcases hstep acc k with ⟨heq, hg⟩ | ⟨st, hstterm, heq⟩
      · rw [heq] at he1
        refine Or.inr ⟨e1, he1, hid1, hst1, ?_⟩
        intro k2 hk2
        rcases List.mem_cons.mp hk2 with rfl | h
        · rw [hg]
          rfl
        · exact hnot k2 h
      · rw [heq] at he1
        rcases List.mem_map.mp he1 with ⟨e0, he0, heq0⟩
        by_cases hc : (gids k).contains (idOf e0) = true
        · rw [if_pos hc] at heq0
          left
          rw [hst1, ← heq0, hset e0 st]
          exact hstterm
        · rw [if_neg hc] at heq0
          subst heq0
          refine Or.inr ⟨e0, he0, hid1, hst1, ?_⟩
          intro k2 hk2
          rcases List.mem_cons.mp hk2 with rfl | h
          · rw [← hid1]
            exact Bool.eq_false_iff.mpr hc
          · exact hnot k2 h

theorem mem_insertByLe {le : α → α → Bool} {x y : α} {l : List α} :
    y ∈ insertByLe le x l ↔ y = x ∨ y ∈ l := by
  induction l with
  | nil => simp [insertByLe]
  | cons a t ih =>
    simp only [insertByLe]
    split
    · simp [List.mem_cons]
    · simp only [List.mem_cons, ih]
      tauto

theorem mem_sortByLe {le : α → α → Bool} {y : α} {l : List α} :
    y ∈ sortByLe le l ↔ y ∈ l := by
  induction l with
  | nil => simp [sortByLe]
  | cons a t ih =>
    simp [sortByLe, mem_insertByLe, ih]

theorem mem_collectKeysAux_acc (rows : List (MatchEventRow × SubRow)) :
    ∀ (ks : List (Int × Int)) (k : Int × Int), k ∈ ks →
      k ∈ collectKeysAux ks rows := by
  induction rows with
  | nil =>
    intro ks k hk
    exact hk
  | cons a rest ih =>
    intro ks k hk
    simp only [collectKeysAux]
    apply ih
    split
    · exact hk
    · exact List.mem_append_left _ hk

theorem mem_collectKeysAux_row (rows : List (MatchEventRow × SubRow)) :
    ∀ (ks : List (Int × Int)) (r : MatchEventRow × SubRow), r ∈ rows →
      matchRowKey r ∈ collectKeysAux ks rows := by
  induction rows with
  | nil =>
    intro ks r hr
    cases hr
  | cons a rest ih =>
    intro ks r hr
    rcases List.mem_cons.mp hr with rfl | hr2
    · simp only [collectKeysAux]
      apply mem_collectKeysAux_acc
      split
      · rename_i hcont
        simpa using hcont
      · exact List.mem_append_right _ (by simp)
    · simp only [collectKeysAux]
      exact ih _ r hr2

theorem dispatchMatchGroup_hstep (env : NotifEnv)
    (rows : List (MatchEventRow × SubRow)) :
    ∀ (acc : List MatchEventRow) (key : Int × Int),
      (dispatchMatchGroup env rows acc key = acc ∧
        (groupRows rows key).map (fun g => g.1.id) = []) ∨
      (∃ st, isTerminal st ∧
        dispatchMatchGroup env rows acc key = acc.map (fun e =>
          if ((groupRows rows key).map (fun g => g.1.id)).contains e.id then
            { e with notify_status := st } else e)) := by
  intro acc key
  rcases hg : groupRows rows key with _ | ⟨r, rest⟩
  · left
    constructor
    · simp [dispatchMatchGroup, hg]
    · rfl
  · right
    refine ⟨matchGroupOutcome env key.1 r.2 ((r :: rest).map (fun g => g.1)),
      matchGroupOutcome_terminal _ _ _ _, ?_⟩
    simp [dispatchMatchGroup, hg, markMatchEvents]

theorem dispatchDigestRow_hstep (env : NotifEnv) :
    ∀ (acc : List DigestEventRow) (r : DigestEventRow × SubRow),
      (dispatchDigestRow env acc r = acc ∧ ([r.1.id] : List Int) = []) ∨
      (∃ st, isTerminal st ∧
        dispatchDigestRow env acc r = acc.map (fun e =>
          if ([r.1.id] : List Int).contains e.id then
            { e with notify_status := st } else e)) := by
  intro acc r
  right
  exact ⟨digestRowOutcome env (pyOrInt r.2.owner_user_id DEV_OWNER_USER_ID) r.2 r.1,
    digestRowOutcome_terminal _ _ _ _, rfl⟩

/-- C3: after a dispatch tick of the notification engine completes
(with sends succeeding or failing), every event the tick reserved
(transitioned queued to sending) is in a terminal state — `sent` or
`failed`; no reserved event is left in `sending`.  This holds for both
the match-event and the digest-event pipeline. -/
theorem notifReservedEventsEndTerminal :
    ∀ (env : NotifEnv) (mstore : List MatchEventRow)
      (dstore : List DigestEventRow),
      (∀ e ∈ (dispatchMatchTick env mstore).2,
        e.id ∈ (dispatchMatchTick env mstore).1 → isTerminal e.notify_status) ∧
      (∀ e ∈ (dispatchDigestTick env dstore).2,
        e.id ∈ (dispatchDigestTick env dstore).1 → isTerminal e.notify_status) := by
  intro env mstore dstore
  constructor
  · intro e he hid
    simp only [dispatchMatchTick] at he hid
    rcases foldl_mark_terminal (fun x : MatchEventRow => x.id)
        (fun x => x.notify_status) (fun x s => { x with notify_status := s })
        (fun _ _ => rfl)
        (fun key => (groupRows (loadMatchRows env (reserveMatchEvents mstore).2
          (reserveMatchEvents mstore).1) key).map (fun g => g.1.id))
        (dispatchMatchGroup env (loadMatchRows env (reserveMatchEvents mstore).2
          (reserveMatchEvents mstore).1))
        (dispatchMatchGroup_hstep env _)
        (collectKeys (loadMatchRows env (reserveMatchEvents mstore).2
          (reserveMatchEvents mstore).1))
        (reserveMatchEvents mstore).2 e he with hterm | ⟨e0, he0, hid0, _, hnone⟩
    · exact hterm
    · exfalso
      have hrow : (e0, env.subs e0.subscription_id) ∈
          loadMatchRows env (reserveMatchEvents mstore).2
            (reserveMatchEvents mstore).1 := by
        unfold loadMatchRows
        rw [mem_sortByLe]
        refine List.mem_map.mpr ⟨e0, ?_, rfl⟩
        refine List.mem_filter.mpr ⟨he0, ?_⟩
        rw [hid0]
        simpa using hid
      have hkey := mem_collectKeysAux_row _ [] _ hrow
      have hgrp : (e0, env.subs e0.subscription_id) ∈
          groupRows (loadMatchRows env (reserveMatchEvents mstore).2
            (reserveMatchEvents mstore).1)
            (matchRowKey (e0, env.subs e0.subscription_id)) :=
        List.mem_filter.mpr ⟨hrow, by simp⟩
      have hcontains : ((groupRows (loadMatchRows env
          (reserveMatchEvents mstore).2 (reserveMatchEvents mstore).1)
          (matchRowKey (e0, env.subs e0.subscription_id))).map
          (fun g => g.1.id)).contains e.id = true := by
        rw [← hid0]
        exact List.elem_eq_true_of_mem
          (List.mem_map.mpr ⟨(e0, env.subs e0.subscription_id), hgrp, rfl⟩)
      have hfalse := hnone _ hkey
      rw [hcontains] at hfalse
      cases hfalse
  · intro e he hid
    simp only [dispatchDigestTick] at he hid
    rcases foldl_mark_terminal (fun x : DigestEventRow => x.id)
        (fun x => x.notify_status) (fun x s => { x with notify_status := s })
        (fun _ _ => rfl)
        (fun r : DigestEventRow × SubRow => ([r.1.id] : List Int))
        (dispatchDigestRow env)
        (dispatchDigestRow_hstep env)
        (loadDigestRows env (reserveDigestEvents dstore).2
          (reserveDigestEvents dstore).1)
        (reserveDigestEvents dstore).2 e he with hterm | ⟨e0, he0, hid0, _, hnone⟩
    · exact hterm
    · exfalso
      have hrow : (e0, env.subs e0.subscription_id) ∈
          loadDigestRows env (reserveDigestEvents dstore).2
            (reserveDigestEvents dstore).1 := by
        unfold loadDigestRows
        rw [mem_sortByLe]
        refine List.mem_map.mpr ⟨e0, ?_, rfl⟩
        refine List.mem_filter.mpr ⟨he0, ?_⟩
        rw [hid0]
        simpa using hid
      have hfalse := hnone _ hrow
      have hcontains : (([e0.id] : List Int)).contains e.id = true := by
        rw [← hid0]
        simp
      rw [hcontains] at hfalse
      cases hfalse

set_option maxRecDepth 8192 in
/-- Witness for C3: one queued match event and one queued digest event,
both reserved and delivered by a concrete tick, end `sent`. -/
theorem notifReservedEventsEndTerminal_witness :
    isTerminal ({ Fix.queuedMatchRow with notify_status := STATUS_SENT }
      : MatchEventRow).notify_status ∧
    isTerminal ({ Fix.queuedDigestRow with notify_status := STATUS_SENT }
      : DigestEventRow).notify_status :=
  ⟨(notifReservedEventsEndTerminal Fix.envN [Fix.queuedMatchRow]
      [Fix.queuedDigestRow]).1 _ (by decide) (by decide),
   (notifReservedEventsEndTerminal Fix.envN [Fix.queuedMatchRow]
      [Fix.queuedDigestRow]).2 _ (by decide) (by decide)⟩

end Cotel
